import Mathlib

/-!
Shallow embedding of the LLaVA conversation-template module: the
SeparatorStyle enumeration, the Conversation dataclass with its
get_prompt / append_message / copy operations, the registered
templates (conv_llava_plain, conv_vicuna_v1), and get_conv_template.
Strings are Lean strings; Python None-able strings are Option String;
exceptions are modelled with Except.
-/

/-- Separator styles of the conversation module (the Python enum). -/
inductive SeparatorStyle where
  | SINGLE
  | TWO
  | MPT
  | PLAIN
  | LLAMA_2
  | VICUNA
  | CHATML
  | CHATGLM
  | DOLLY
  | RWKV
  | PHOENIX
  | ROBIN
  | FALCON_CHAT
deriving DecidableEq

/-- Python ASCII whitespace predicate, as stripped by str.rstrip(). -/
def isPySpace (c : Char) : Bool :=
  c == ' ' || c == '\t' || c == '\n' || c == '\r' || c == '\x0b' || c == '\x0c'

/-- Python str.rstrip(): drop trailing whitespace characters. -/
def pyRstrip (s : String) : String :=
  String.mk ((s.data.reverse.dropWhile isPySpace).reverse)

/-- Python s.endswith(t): suffix test on the underlying character list. -/
def pyEndsWith (s t : String) : Bool :=
  t.data.isSuffixOf s.data

/-- The Conversation dataclass of the source module.  A turn in
`messages` is a (role, content) pair; absent content (Python None) is
`none`. -/
structure Conversation where
  system : String
  roles : List String
  messages : List (String × Option String)
  offset : Int
  sep_style : SeparatorStyle
  sep : String
  sep2 : Option String := none
  stop_str : Option (String ⊕ List String) := none
  stop_token_ids : Option (List Int) := none
deriving DecidableEq

/-- The TWO/VICUNA message loop of get_prompt: running accumulator
`ret`, turn index `i`; a turn with truthy content emits
"role: content" plus the separator selected by the parity of `i`, an
absent or empty content emits "role:" alone. -/
def twoLoop (sep1 s2 : String) : Nat → List (String × Option String) → String → String
  | _, [], ret => ret
  | i, (role, message) :: rest, ret =>
    twoLoop sep1 s2 (i + 1) rest
      (match message with
       | some m =>
         if m ≠ "" then ret ++ role ++ ": " ++ m ++ (if i % 2 = 0 then sep1 else s2)
         else ret ++ role ++ ":"
       | none => ret ++ role ++ ":")

/-- The default-branch message loop of get_prompt (all styles except
TWO/VICUNA), transcribing the Python for-loop with its truthiness test
on the message. -/
def defaultLoop (style : SeparatorStyle) (sep : String) (total : Nat) :
    Nat → List (String × Option String) → String → String
  | _, [], ret => ret
  | i, (role, message) :: rest, ret =>
    defaultLoop style sep total (i + 1) rest
      (match message with
       | some m =>
         if m ≠ "" then
           if style = SeparatorStyle.PLAIN then ret ++ role ++ m ++ sep
           else if style = SeparatorStyle.CHATML then
             ret ++ role ++ "\n" ++ m ++ sep ++ (if i < total - 1 then "\n" else "")
           else ret ++ role ++ m ++ sep
         else
           if style = SeparatorStyle.PLAIN then ret ++ role ++ sep
           else if style = SeparatorStyle.CHATML then ret ++ role ++ "\n"
           else ret ++ role
       | none =>
         if style = SeparatorStyle.PLAIN then ret ++ role ++ sep
         else if style = SeparatorStyle.CHATML then ret ++ role ++ "\n"
         else ret ++ role)

/-- The ValueError message raised by get_prompt when the TWO/VICUNA
style has no sep2. -/
def twoVicunaErr : String :=
  "SeparatorStyle.TWO/VICUNA requires both sep (sep1) and sep2 to be defined."

/-- Conversation.get_prompt of the source, as a pure function whose
raised ValueError is an explicit Except.error. -/
def Conversation.get_prompt (c : Conversation) : Except String String :=
  if c.sep_style = SeparatorStyle.TWO ∨ c.sep_style = SeparatorStyle.VICUNA then
    match c.sep2 with
    | none => Except.error twoVicunaErr
    | some s2 =>
      Except.ok (twoLoop c.sep s2 0 c.messages (if c.system ≠ "" then c.system ++ c.sep else ""))
  else
    let ret0 :=
      if c.system ≠ "" then
        if c.sep_style ≠ SeparatorStyle.CHATML then c.system ++ c.sep else c.system
      else ""
    let ret := defaultLoop c.sep_style c.sep c.messages.length 0 c.messages ret0
    if c.sep_style = SeparatorStyle.PLAIN then
      if c.sep ≠ "" then
        let r := pyRstrip ret
        Except.ok (if pyEndsWith r c.sep then r else r ++ c.sep)
      else Except.ok ret
    else Except.ok ret

/-- Conversation.append_message: append a (role, message) turn to the
history. -/
def Conversation.append_message (c : Conversation) (role : String) (message : Option String) :
    Conversation :=
  { c with messages := c.messages ++ [(role, message)] }

/-- Conversation.copy: deepcopy of the object; under the value
semantics of the embedding a deep copy is the value itself (aliasing
is modelled separately at the store level). -/
def Conversation.copy (c : Conversation) : Conversation := c

/-- Template for stage-1 pretraining (plain style). -/
def conv_llava_plain : Conversation :=
  { system := ""
    roles := ["", ""]
    messages := []
    offset := 0
    sep_style := SeparatorStyle.PLAIN
    sep := "\n"
    sep2 := none
    stop_str := none
    stop_token_ids := none }

/-- Template for Vicuna v1 instruction tuning (TWO style). -/
def conv_vicuna_v1 : Conversation :=
  { system := "A chat between a curious user and an artificial intelligence assistant. The assistant gives helpful, detailed, and polite answers to the user\x27s questions."
    roles := ["USER", "ASSISTANT"]
    messages := []
    offset := 0
    sep_style := SeparatorStyle.TWO
    sep := " "
    sep2 := some "</s>"
    stop_str := some (Sum.inl "</s>")
    stop_token_ids := none }

/-- The module-level template table. -/
def conv_templates : List (String × Conversation) :=
  [("plain", conv_llava_plain), ("v1", conv_vicuna_v1)]

/-- Python repr of a string with single quotes (the template keys
contain no quote characters). -/
def pyStrRepr (s : String) : String := "\x27" ++ s ++ "\x27"

/-- Python repr of a list of strings, as produced by
list(dict.keys()) inside an f-string. -/
def pyListRepr (xs : List String) : String :=
  "[" ++ String.intercalate ", " (xs.map pyStrRepr) ++ "]"

/-- The error message of get_conv_template for an unknown name. -/
def unknownTemplateMsg (name : String) : String :=
  "Unknown conversation template: " ++ name ++ ". Available templates: " ++
    pyListRepr (conv_templates.map Prod.fst)

/-- get_conv_template: look a template up by name and return a copy,
or fail with the unknown-template message. -/
def get_conv_template (name : String) : Except String Conversation :=
  match conv_templates.lookup name with
  | none => Except.error (unknownTemplateMsg name)
  | some c => Except.ok c.copy

/-- The conversation of the v1 scenario: the cloned v1 template with
the four dialogue turns and the trailing assistant prompt marker. -/
def c1Conv : Conversation :=
  ((((conv_vicuna_v1.copy.append_message "USER" (some "<image>\nDescribe it.")).append_message
      "ASSISTANT" (some "It is red.")).append_message
      "USER" (some "What shape?")).append_message
      "ASSISTANT" (some "It is square.")).append_message "ASSISTANT" none

/-- The conversation of the plain scenario: the cloned plain template
with the image turn and the caption turn. -/
def c5Conv : Conversation :=
  (conv_llava_plain.copy.append_message "" (some "<image>")).append_message ""
    (some "A red block.")

/-- Concatenate a per-turn piece over the turn history, threading the
turn index; the spec-side counterpart of the accumulator loops. -/
def turnsRender (piece : Nat → String × Option String → String) :
    Nat → List (String × Option String) → String
  | _, [] => ""
  | i, t :: rest => piece i t ++ turnsRender piece (i + 1) rest

/-- One TWO/VICUNA turn as the amended spec words it: a present,
non-empty content yields "role: content" plus sep for even index and
sep2 for odd index; an absent or empty content yields "role:" with no
trailing separator. -/
def specTurnTwo (sep1 s2 : String) (i : Nat) (t : String × Option String) : String :=
  match t with
  | (role, content) =>
    match content with
    | some m =>
      if m ≠ "" then role ++ ": " ++ m ++ (if i % 2 = 0 then sep1 else s2)
      else role ++ ":"
    | none => role ++ ":"

/-- The whole TWO/VICUNA prompt as the amended spec words it: the
system preamble part (system ++ sep when system is non-empty, else
empty) followed by the rendered turns. -/
def specTwoPrompt (c : Conversation) (s2 : String) : String :=
  (if c.system ≠ "" then c.system ++ c.sep else "") ++
    turnsRender (specTurnTwo c.sep s2) 0 c.messages

/-- One TWO/VICUNA turn exactly as claim C2 words it: every present
content — the empty string included — gets the "role: content" form
plus the index-selected separator. -/
def claimedTurnTwo (sep1 s2 : String) (i : Nat) (t : String × Option String) : String :=
  match t with
  | (role, content) =>
    match content with
    | some m => role ++ ": " ++ m ++ (if i % 2 = 0 then sep1 else s2)
    | none => role ++ ":"

/-- The whole TWO/VICUNA prompt exactly as claim C2 words it. -/
def claimedTwoPrompt (c : Conversation) (s2 : String) : String :=
  (if c.system ≠ "" then c.system ++ c.sep else "") ++
    turnsRender (claimedTurnTwo c.sep s2) 0 c.messages

/-- One default-path turn as the amended spec words it: present,
non-empty content — plain and fallback styles emit role ++ content ++
sep, CHATML emits role ++ newline ++ content ++ sep plus an extra
newline unless the turn is the last; absent or empty content — plain
emits role ++ sep, CHATML emits role ++ newline, the rest emit role
alone. -/
def specTurnDefault (style : SeparatorStyle) (sep : String) (total : Nat) (i : Nat)
    (t : String × Option String) : String :=
  match t with
  | (role, content) =>
    match content with
    | some m =>
      if m ≠ "" then
        if style = SeparatorStyle.PLAIN then role ++ m ++ sep
        else if style = SeparatorStyle.CHATML then
          role ++ "\n" ++ m ++ sep ++ (if i < total - 1 then "\n" else "")
        else role ++ m ++ sep
      else
        if style = SeparatorStyle.PLAIN then role ++ sep
        else if style = SeparatorStyle.CHATML then role ++ "\n"
        else role
    | none =>
      if style = SeparatorStyle.PLAIN then role ++ sep
      else if style = SeparatorStyle.CHATML then role ++ "\n"
      else role

/-- The default-path system preamble part: system followed by sep when
system is non-empty, except that CHATML emits system without the sep. -/
def sysPartDefault (c : Conversation) : String :=
  if c.system ≠ "" then
    if c.sep_style ≠ SeparatorStyle.CHATML then c.system ++ c.sep else c.system
  else ""

/-- The default-path prompt before the plain-only cleanup, as the
amended spec words it. -/
def specDefaultPrompt (c : Conversation) : String :=
  sysPartDefault c ++
    turnsRender (specTurnDefault c.sep_style c.sep c.messages.length) 0 c.messages

/-- One default-path turn exactly as claim C8 words it: every present
content — the empty string included — takes the present-content form. -/
def claimedTurnDefault (style : SeparatorStyle) (sep : String) (total : Nat) (i : Nat)
    (t : String × Option String) : String :=
  match t with
  | (role, content) =>
    match content with
    | some m =>
      if style = SeparatorStyle.PLAIN then role ++ m ++ sep
      else if style = SeparatorStyle.CHATML then
        role ++ "\n" ++ m ++ sep ++ (if i < total - 1 then "\n" else "")
      else role ++ m ++ sep
    | none =>
      if style = SeparatorStyle.PLAIN then role ++ sep
      else if style = SeparatorStyle.CHATML then role ++ "\n"
      else role

/-- The default-path loop output exactly as claim C8 words it. -/
def claimedDefaultPrompt (c : Conversation) : String :=
  sysPartDefault c ++
    turnsRender (claimedTurnDefault c.sep_style c.sep c.messages.length) 0 c.messages

/-- The plain-style final cleanup: strip trailing whitespace, then
append sep when the stripped string does not already end with it. -/
def plainCleanup (s sep : String) : String :=
  if pyEndsWith (pyRstrip s) sep then pyRstrip s else pyRstrip s ++ sep

/-- Ends with exactly one trailing occurrence of t: ends with t but
not with t ++ t. -/
def endsWithExactlyOne (s t : String) : Bool :=
  pyEndsWith s t && !(pyEndsWith s (t ++ t))

/-- Counterexample conversation for C2: a TWO-style conversation whose
single turn has present but empty content. -/
def cexC2 : Conversation :=
  { system := ""
    roles := ["USER", "ASSISTANT"]
    messages := [("USER", some "")]
    offset := 0
    sep_style := SeparatorStyle.TWO
    sep := " "
    sep2 := some "</s>" }

/-- Counterexample conversation for C4: a plain-style conversation
whose separator "ab" is not whitespace and whose single content
already ends with the separator. -/
def cexC4 : Conversation :=
  { system := ""
    roles := []
    messages := [("", some "xab")]
    offset := 0
    sep_style := SeparatorStyle.PLAIN
    sep := "ab" }

/-- Counterexample conversation for C8: a CHATML conversation whose
single turn has present but empty content. -/
def cexC8 : Conversation :=
  { system := ""
    roles := []
    messages := [("R", some "")]
    offset := 0
    sep_style := SeparatorStyle.CHATML
    sep := "X" }

/-- The in-place mutations Python callers can perform on a
Conversation object: append_message, assignment to a field, to a
history entry, or to a nested content. -/
inductive Mutation where
  | appendTurn : String → Option String → Mutation
  | setSystem : String → Mutation
  | setRoles : List String → Mutation
  | setMessages : List (String × Option String) → Mutation
  | setTurn : Nat → String → Option String → Mutation
  | setTurnContent : Nat → Option String → Mutation
  | setOffset : Int → Mutation
  | setStyle : SeparatorStyle → Mutation
  | setSep : String → Mutation
  | setSep2 : Option String → Mutation
  | setStopStr : Option (String ⊕ List String) → Mutation
  | setStopTokenIds : Option (List Int) → Mutation

/-- Apply one mutation to a conversation value. -/
def applyMut (c : Conversation) : Mutation → Conversation
  | Mutation.appendTurn role content => c.append_message role content
  | Mutation.setSystem v => { c with system := v }
  | Mutation.setRoles v => { c with roles := v }
  | Mutation.setMessages v => { c with messages := v }
  | Mutation.setTurn i role content => { c with messages := c.messages.set i (role, content) }
  | Mutation.setTurnContent i content =>
    match c.messages[i]? with
    | some (r, _) => { c with messages := c.messages.set i (r, content) }
    | none => c
  | Mutation.setOffset v => { c with offset := v }
  | Mutation.setStyle v => { c with sep_style := v }
  | Mutation.setSep v => { c with sep := v }
  | Mutation.setSep2 v => { c with sep2 := v }
  | Mutation.setStopStr v => { c with stop_str := v }
  | Mutation.setStopTokenIds v => { c with stop_token_ids := v }

/-- A heap of conversation objects; a reference is an index into the
heap.  Mutating through reference r rewrites only the object at r. -/
def storeMutate (s : List Conversation) (r : Nat) (m : Mutation) : List Conversation :=
  match s[r]? with
  | some c => s.set r (applyMut c m)
  | none => s

/-- Apply a sequence of mutations, all through reference r. -/
def mutateSeq (s : List Conversation) (r : Nat) (ms : List Mutation) : List Conversation :=
  ms.foldl (fun acc m => storeMutate acc r m) s

/-- Conversation.copy at the heap level: allocate a fresh object
holding the deep-copied value and return its reference. -/
def storeClone (s : List Conversation) (r : Nat) : List Conversation × Nat :=
  match s[r]? with
  | some c => (s ++ [c.copy], s.length)
  | none => (s, s.length)

/-- References of the registered prototypes inside a heap whose first
objects are the prototypes (the module-level table). -/
def template_index : List (String × Nat) := [("plain", 0), ("v1", 1)]

/-- The heap holding the registered prototypes at process start. -/
def template_store : List Conversation := [conv_llava_plain, conv_vicuna_v1]

/-- get_conv_template at the heap level: an unknown name fails with
the unknown-template message; a known name reads the prototype object
and allocates a fresh clone of it (the inner out-of-range guard never
fires on heaps extending template_store). -/
def get_conv_template_s (s : List Conversation) (name : String) :
    Except String (List Conversation × Nat) :=
  match template_index.lookup name with
  | none => Except.error (unknownTemplateMsg name)
  | some r =>
    match s[r]? with
    | none => Except.error (unknownTemplateMsg name)
    | some proto => Except.ok (s ++ [proto.copy], s.length)

set_option maxRecDepth 100000

/-- C1: cloning the "v1" catalog template and appending the five
scenario turns makes assemble() return the system text followed by
" USER: <image>\nDescribe it. ASSISTANT: It is red.</s>USER: What shape? ASSISTANT: It is square.</s>ASSISTANT:". -/
theorem c1_v1_scenario :
    get_conv_template "v1" = Except.ok conv_vicuna_v1.copy ∧
    c1Conv.get_prompt = Except.ok
      ("A chat between a curious user and an artificial intelligence assistant. The assistant gives helpful, detailed, and polite answers to the user\x27s questions." ++
        " USER: <image>\nDescribe it. ASSISTANT: It is red.</s>USER: What shape? ASSISTANT: It is square.</s>ASSISTANT:") := by
  exact ⟨rfl, rfl⟩

/-- C5: cloning the "plain" catalog template and appending the turns
("", "<image>") and ("", "A red block.") makes assemble() return
exactly "<image>\nA red block.\n". -/
theorem c5_plain_scenario :
    get_conv_template "plain" = Except.ok conv_llava_plain.copy ∧
    c5Conv.get_prompt = Except.ok "<image>\nA red block.\n" := by
  exact ⟨rfl, rfl⟩

/-- C10: a clone of the "plain" template with no turns assembles to
the one-character string "\n", not the empty string. -/
theorem c10_plain_empty_history :
    conv_llava_plain.copy.get_prompt = Except.ok "\n" ∧ ("\n" : String) ≠ "" := by
  exact ⟨rfl, by decide⟩

/-- The TWO/VICUNA accumulator loop prepends its accumulator to the
rendered turns. -/
theorem twoLoop_eq_render (sep1 s2 : String) (msgs : List (String × Option String))
    (i : Nat) (ret : String) :
    twoLoop sep1 s2 i msgs ret = ret ++ turnsRender (specTurnTwo sep1 s2) i msgs := by
  induction msgs generalizing i ret with
  | nil => simp [twoLoop, turnsRender, String.append_empty]
  | cons t rest ih =>
    obtain ⟨role, message⟩ := t
    cases message with
    | none => simp [twoLoop, turnsRender, specTurnTwo, ih, String.append_assoc]
    | some m =>
      by_cases hm : m = ""
      · subst hm
        simp [twoLoop, turnsRender, specTurnTwo, ih, String.append_assoc]
      · simp [twoLoop, turnsRender, specTurnTwo, hm, ih, String.append_assoc]

/-- The default-branch accumulator loop prepends its accumulator to
the rendered turns. -/
theorem defaultLoop_eq_render (style : SeparatorStyle) (sep : String) (total : Nat)
    (msgs : List (String × Option String)) (i : Nat) (ret : String) :
    defaultLoop style sep total i msgs ret =
      ret ++ turnsRender (specTurnDefault style sep total) i msgs := by
  induction msgs generalizing i ret with
  | nil => simp [defaultLoop, turnsRender, String.append_empty]
  | cons t rest ih =>
    obtain ⟨role, message⟩ := t
    by_cases hp : style = SeparatorStyle.PLAIN
    · subst hp
      cases message with
      | none => simp [defaultLoop, turnsRender, specTurnDefault, ih, String.append_assoc]
      | some m =>
        by_cases hm : m = ""
        · subst hm
          simp [defaultLoop, turnsRender, specTurnDefault, ih, String.append_assoc]
        · simp [defaultLoop, turnsRender, specTurnDefault, hm, ih, String.append_assoc]
    · by_cases hc : style = SeparatorStyle.CHATML
      · subst hc
        cases message with
        | none => simp [defaultLoop, turnsRender, specTurnDefault, ih, String.append_assoc]
        | some m =>
          by_cases hm : m = ""
          · subst hm
            simp [defaultLoop, turnsRender, specTurnDefault, ih, String.append_assoc]
          · by_cases hi : i < total - 1
            · simp [defaultLoop, turnsRender, specTurnDefault, hm, hi, ih, String.append_assoc]
            · simp [defaultLoop, turnsRender, specTurnDefault, hm, hi, ih, String.append_assoc]
      · cases message with
        | none => simp [defaultLoop, turnsRender, specTurnDefault, hp, hc, ih, String.append_assoc]
        | some m =>
          by_cases hm : m = ""
          · subst hm
            simp [defaultLoop, turnsRender, specTurnDefault, hp, hc, ih, String.append_assoc]
          · simp [defaultLoop, turnsRender, specTurnDefault, hp, hc, hm, ih, String.append_assoc]

/-- Rendering distributes over list append, shifting the index. -/
theorem turnsRender_append (p : Nat → String × Option String → String)
    (xs ys : List (String × Option String)) (i : Nat) :
    turnsRender p i (xs ++ ys) = turnsRender p i xs ++ turnsRender p (i + xs.length) ys := by
  induction xs generalizing i with
  | nil => simp [turnsRender, String.empty_append]
  | cons t rest ih =>
    have hn : i + 1 + rest.length = i + (rest.length + 1) := by omega
    simp only [List.cons_append, turnsRender, List.length_cons, String.append_assoc,
      List.append_eq]
    rw [ih, hn]

/-- get_prompt on the TWO/VICUNA branch with sep2 set returns the
rendered prompt. -/
theorem get_prompt_two (c : Conversation) (s2 : String)
    (hsty : c.sep_style = SeparatorStyle.TWO ∨ c.sep_style = SeparatorStyle.VICUNA)
    (h2 : c.sep2 = some s2) :
    c.get_prompt = Except.ok (specTwoPrompt c s2) := by
  simp only [Conversation.get_prompt, if_pos hsty, h2, specTwoPrompt, twoLoop_eq_render]

/-- get_prompt on the default branch routes the rendered prompt
through the plain cleanup exactly when the style is PLAIN and sep is
non-empty. -/
theorem get_prompt_default (c : Conversation)
    (h1 : c.sep_style ≠ SeparatorStyle.TWO) (h2 : c.sep_style ≠ SeparatorStyle.VICUNA) :
    c.get_prompt =
      if c.sep_style = SeparatorStyle.PLAIN then
        if c.sep ≠ "" then Except.ok (plainCleanup (specDefaultPrompt c) c.sep)
        else Except.ok (specDefaultPrompt c)
      else Except.ok (specDefaultPrompt c) := by
  have hor : ¬(c.sep_style = SeparatorStyle.TWO ∨ c.sep_style = SeparatorStyle.VICUNA) := by
    rintro (h | h)
    · exact h1 h
    · exact h2 h
  simp only [Conversation.get_prompt, if_neg hor, defaultLoop_eq_render, specDefaultPrompt,
    sysPartDefault, plainCleanup]

/-- Appending t makes t a Python suffix. -/
theorem pyEndsWith_append (x t : String) : pyEndsWith (x ++ t) t = true := by
  unfold pyEndsWith
  rw [String.data_append]
  exact List.isSuffixOf_iff_suffix.mpr (List.suffix_append _ _)

/-- The plain cleanup always produces a string ending with sep. -/
theorem plainCleanup_endsWith (s sep : String) :
    pyEndsWith (plainCleanup s sep) sep = true := by
  unfold plainCleanup
  cases hb : pyEndsWith (pyRstrip s) sep with
  | true => simp [hb]
  | false => simp [hb, pyEndsWith_append]

/-- Mutating through reference r leaves every other reference
untouched. -/
theorem storeMutate_getElem_ne (s : List Conversation) (r a : Nat) (m : Mutation)
    (h : a ≠ r) : (storeMutate s r m)[a]? = s[a]? := by
  unfold storeMutate
  cases hr : s[r]? with
  | none => rfl
  | some c => exact List.getElem?_set_ne (Ne.symm h)

/-- A mutation sequence through reference r leaves every other
reference untouched. -/
theorem mutateSeq_getElem_ne (s : List Conversation) (r a : Nat) (ms : List Mutation)
    (h : a ≠ r) : (mutateSeq s r ms)[a]? = s[a]? := by
  induction ms generalizing s with
  | nil => rfl
  | cons m rest ih =>
    simp only [mutateSeq, List.foldl_cons]
    rw [show (List.foldl (fun acc m => storeMutate acc r m) (storeMutate s r m) rest) =
      mutateSeq (storeMutate s r m) r rest from rfl, ih, storeMutate_getElem_ne s r a m h]

/-- C2 (amended): for every conversation in the TWO style or its
VICUNA alias with sep2 set, assemble() returns the system part
followed, per turn, by "role: content" plus sep (even index) or sep2
(odd index) when the content is present and non-empty, and by "role:"
with no trailing separator when the content is absent or the empty
string. -/
theorem c2_two_style_assembly (c : Conversation) (s2 : String)
    (hsty : c.sep_style = SeparatorStyle.TWO ∨ c.sep_style = SeparatorStyle.VICUNA)
    (h2 : c.sep2 = some s2) :
    c.get_prompt = Except.ok (specTwoPrompt c s2) :=
  get_prompt_two c s2 hsty h2

/-- Witness for C2 at the concrete v1 scenario conversation. -/
theorem c2_two_style_assembly_witness :
    c1Conv.get_prompt = Except.ok (specTwoPrompt c1Conv "</s>") :=
  c2_two_style_assembly c1Conv "</s>" (Or.inl rfl) rfl

/-- Counterexample to C2 as stated: a TWO-style turn whose content is
present but empty is emitted as "USER:" by the code, not as
"USER: " plus the separator that the claim's reading requires. -/
theorem c2_counterexample_empty_content :
    cexC2.get_prompt = Except.ok "USER:" ∧
    claimedTwoPrompt cexC2 "</s>" = "USER:  " ∧
    cexC2.get_prompt ≠ Except.ok (claimedTwoPrompt cexC2 "</s>") := by
  refine ⟨rfl, rfl, fun h => ?_⟩
  exact absurd (Except.ok.inj h) (by decide)

/-- C3: assemble() raises the missing-secondary-separator error
exactly when the style is TWO or VICUNA and sep2 is unset, and that
error is the only error it can ever raise. -/
theorem c3_missing_sep2_error (c : Conversation) :
    (c.get_prompt = Except.error twoVicunaErr ↔
      (c.sep_style = SeparatorStyle.TWO ∨ c.sep_style = SeparatorStyle.VICUNA) ∧
        c.sep2 = none) ∧
    ∀ e, c.get_prompt = Except.error e → e = twoVicunaErr := by
  by_cases hsty : c.sep_style = SeparatorStyle.TWO ∨ c.sep_style = SeparatorStyle.VICUNA
  · cases h2 : c.sep2 with
    | none =>
      have he : c.get_prompt = Except.error twoVicunaErr := by
        simp [Conversation.get_prompt, if_pos hsty, h2]
      refine ⟨⟨fun _ => ⟨hsty, rfl⟩, fun _ => he⟩, fun e h => ?_⟩
      exact (Except.error.inj (he.symm.trans h)).symm
    | some s2 =>
      have hok : c.get_prompt = Except.ok (specTwoPrompt c s2) := get_prompt_two c s2 hsty h2
      refine ⟨⟨fun h => ?_, fun ⟨_, hn⟩ => ?_⟩, fun e h => ?_⟩
      · rw [hok] at h
        simp at h
      · simp at hn
      · rw [hok] at h
        simp at h
  · have h1 : c.sep_style ≠ SeparatorStyle.TWO := fun h => hsty (Or.inl h)
    have h2 : c.sep_style ≠ SeparatorStyle.VICUNA := fun h => hsty (Or.inr h)
    have hd := get_prompt_default c h1 h2
    refine ⟨⟨fun h => ?_, fun ⟨ha, _⟩ => absurd ha hsty⟩, fun e h => ?_⟩
    · rw [hd] at h
      split at h <;> first | (split at h <;> simp at h) | simp at h
    · rw [hd] at h
      split at h <;> first | (split at h <;> simp at h) | simp at h

/-- C4 (amended): for plain-style conversations with a non-empty sep,
assemble() post-processes the loop output — strip trailing
whitespace, then append sep when the stripped string does not already
end with it — so the returned string ends with sep; with an empty sep
the loop output is returned unchanged; no other default-path style
gets this post-processing. -/
theorem c4_plain_postprocessing (c : Conversation) :
    (c.sep_style = SeparatorStyle.PLAIN → c.sep ≠ "" →
      c.get_prompt = Except.ok (plainCleanup (specDefaultPrompt c) c.sep) ∧
      pyEndsWith (plainCleanup (specDefaultPrompt c) c.sep) c.sep = true) ∧
    (c.sep_style = SeparatorStyle.PLAIN → c.sep = "" →
      c.get_prompt = Except.ok (specDefaultPrompt c)) ∧
    (c.sep_style ≠ SeparatorStyle.PLAIN → c.sep_style ≠ SeparatorStyle.TWO →
      c.sep_style ≠ SeparatorStyle.VICUNA →
      c.get_prompt = Except.ok (specDefaultPrompt c)) := by
  refine ⟨fun hp hs => ?_, fun hp hs => ?_, fun hp h1 h2 => ?_⟩
  · have h1 : c.sep_style ≠ SeparatorStyle.TWO := by rw [hp]; decide
    have h2 : c.sep_style ≠ SeparatorStyle.VICUNA := by rw [hp]; decide
    refine ⟨?_, plainCleanup_endsWith _ _⟩
    rw [get_prompt_default c h1 h2, if_pos hp, if_pos hs]
  · have h1 : c.sep_style ≠ SeparatorStyle.TWO := by rw [hp]; decide
    have h2 : c.sep_style ≠ SeparatorStyle.VICUNA := by rw [hp]; decide
    rw [get_prompt_default c h1 h2, if_pos hp, if_neg (fun hne => hne hs)]
  · rw [get_prompt_default c h1 h2, if_neg hp]

/-- Counterexample to C4 as stated: with the non-whitespace separator
"ab" and a content already ending in "ab", the returned string
"xabab" ends with two trailing occurrences of sep, not exactly one. -/
theorem c4_counterexample_double_sep :
    cexC4.get_prompt = Except.ok "xabab" ∧
    endsWithExactlyOne "xabab" "ab" = false := by
  exact ⟨rfl, by decide⟩

/-- C6: copy() yields a fully independent object: after cloning
reference a into the fresh reference s.length, any mutation sequence
through the clone leaves the original object and its assembled prompt
unchanged, and any mutation sequence through the original is never
observable through the clone. -/
theorem c6_clone_independence (s : List Conversation) (a : Nat) (c : Conversation)
    (ms : List Mutation) (h : s[a]? = some c) :
    storeClone s a = (s ++ [c.copy], s.length) ∧
    (mutateSeq (s ++ [c.copy]) s.length ms)[a]? = some c ∧
    ((mutateSeq (s ++ [c.copy]) s.length ms)[a]?).map Conversation.get_prompt =
      some c.get_prompt ∧
    (mutateSeq (s ++ [c.copy]) a ms)[s.length]? = some c.copy := by
  have ha : a < s.length := (List.getElem?_eq_some.mp h).1
  have hne : a ≠ s.length := Nat.ne_of_lt ha
  have hkeep : (mutateSeq (s ++ [c.copy]) s.length ms)[a]? = some c := by
    rw [mutateSeq_getElem_ne _ _ _ _ hne, List.getElem?_append, if_pos ha, h]
  refine ⟨?_, hkeep, ?_, ?_⟩
  · unfold storeClone
    rw [h]
  · rw [hkeep]
    rfl
  · rw [mutateSeq_getElem_ne _ _ _ _ (Ne.symm hne), List.getElem?_concat_length]

/-- Witness for C6 at a concrete one-object heap and a concrete
mutation sequence. -/
theorem c6_clone_independence_witness :
    storeClone [conv_llava_plain] 0 =
      ([conv_llava_plain] ++ [conv_llava_plain.copy], [conv_llava_plain].length) ∧
    (mutateSeq ([conv_llava_plain] ++ [conv_llava_plain.copy]) [conv_llava_plain].length
        [Mutation.setSystem "x", Mutation.appendTurn "u" (some "hi")])[0]? =
      some conv_llava_plain ∧
    ((mutateSeq ([conv_llava_plain] ++ [conv_llava_plain.copy]) [conv_llava_plain].length
        [Mutation.setSystem "x", Mutation.appendTurn "u" (some "hi")])[0]?).map
        Conversation.get_prompt = some conv_llava_plain.get_prompt ∧
    (mutateSeq ([conv_llava_plain] ++ [conv_llava_plain.copy]) 0
        [Mutation.setSystem "x", Mutation.appendTurn "u" (some "hi")])[[conv_llava_plain].length]? =
      some conv_llava_plain.copy :=
  c6_clone_independence [conv_llava_plain] 0 conv_llava_plain
    [Mutation.setSystem "x", Mutation.appendTurn "u" (some "hi")] rfl

/-- C7: catalog lookup fails with the unknown-template message — a
message listing the registered names "plain" and "v1" — exactly for
unregistered names; a registered name yields a fresh clone of the
prototype, and mutating that clone never changes the prototype object
nor the result of a later lookup of the same name. -/
theorem c7_template_catalog (name : String) (s : List Conversation) (ms : List Mutation) :
    conv_templates.map Prod.fst = ["plain", "v1"] ∧
    (¬(name = "plain" ∨ name = "v1") →
      get_conv_template name = Except.error (unknownTemplateMsg name) ∧
      get_conv_template_s s name = Except.error (unknownTemplateMsg name) ∧
      unknownTemplateMsg name =
        "Unknown conversation template: " ++ name ++
          ". Available templates: [\x27plain\x27, \x27v1\x27]") ∧
    ((name = "plain" ∨ name = "v1") →
      ∃ proto, conv_templates.lookup name = some proto ∧
        get_conv_template name = Except.ok proto.copy) ∧
    (∀ r proto, template_index.lookup name = some r → s[r]? = some proto →
      get_conv_template_s s name = Except.ok (s ++ [proto.copy], s.length) ∧
      (mutateSeq (s ++ [proto.copy]) s.length ms)[r]? = some proto ∧
      get_conv_template_s (mutateSeq (s ++ [proto.copy]) s.length ms) name =
        Except.ok (mutateSeq (s ++ [proto.copy]) s.length ms ++ [proto.copy],
          (mutateSeq (s ++ [proto.copy]) s.length ms).length)) := by
  refine ⟨rfl, fun h => ?_, fun h => ?_, fun r proto hr hp => ?_⟩
  · push_neg at h
    obtain ⟨h1, h2⟩ := h
    have hb1 : (name == "plain") = false := beq_eq_false_iff_ne.mpr h1
    have hb2 : (name == "v1") = false := beq_eq_false_iff_ne.mpr h2
    have e1 : conv_templates.lookup name = none := by
      simp [conv_templates, List.lookup, hb1, hb2]
    have e2 : template_index.lookup name = none := by
      simp [template_index, List.lookup, hb1, hb2]
    refine ⟨by simp [get_conv_template, e1], by simp [get_conv_template_s, e2], ?_⟩
    simp only [unknownTemplateMsg]
    rw [String.append_assoc]
    congr 1
  · rcases h with rfl | rfl
    · exact ⟨conv_llava_plain, rfl, rfl⟩
    · exact ⟨conv_vicuna_v1, rfl, rfl⟩
  · have hrlen : r < s.length := (List.getElem?_eq_some.mp hp).1
    have hne : r ≠ s.length := Nat.ne_of_lt hrlen
    have hkeep : (mutateSeq (s ++ [proto.copy]) s.length ms)[r]? = some proto := by
      rw [mutateSeq_getElem_ne _ _ _ _ hne, List.getElem?_append, if_pos hrlen, hp]
    refine ⟨by simp [get_conv_template_s, hr, hp], hkeep, ?_⟩
    simp [get_conv_template_s, hr, hkeep]

/-- C8 (amended): on the default path, a style that is neither
TWO/VICUNA nor PLAIN returns the rendered default prompt as-is — the
system part (with sep unless CHATML), then per turn the
present-and-non-empty form or the absent-or-empty form of the active
style — while PLAIN routes the same rendered prompt through the final
cleanup when sep is non-empty. -/
theorem c8_default_dispatch (c : Conversation) :
    (c.sep_style ≠ SeparatorStyle.TWO → c.sep_style ≠ SeparatorStyle.VICUNA →
      c.sep_style ≠ SeparatorStyle.PLAIN →
      c.get_prompt = Except.ok (specDefaultPrompt c)) ∧
    (c.sep_style = SeparatorStyle.PLAIN →
      c.get_prompt =
        Except.ok (if c.sep ≠ "" then plainCleanup (specDefaultPrompt c) c.sep
          else specDefaultPrompt c)) := by
  constructor
  · intro h1 h2 hp
    rw [get_prompt_default c h1 h2, if_neg hp]
  · intro hp
    have h1 : c.sep_style ≠ SeparatorStyle.TWO := by rw [hp]; decide
    have h2 : c.sep_style ≠ SeparatorStyle.VICUNA := by rw [hp]; decide
    rw [get_prompt_default c h1 h2, if_pos hp]
    by_cases hs : c.sep ≠ ""
    · rw [if_pos hs, if_pos hs]
    · rw [if_neg hs, if_neg hs]

/-- Counterexample to C8 as stated: a CHATML turn whose content is
present but empty is emitted as "R\n" by the code, not as
"R\n" ++ "" ++ sep as the claim's present-content rule requires. -/
theorem c8_counterexample_empty_content :
    cexC8.get_prompt = Except.ok "R\n" ∧
    claimedDefaultPrompt cexC8 = "R\nX" ∧
    cexC8.get_prompt ≠ Except.ok (claimedDefaultPrompt cexC8) := by
  refine ⟨rfl, rfl, fun h => ?_⟩
  exact absurd (Except.ok.inj h) (by decide)

/-- C9: in every style, a turn whose content is present but equal to
the empty string assembles exactly like a turn with absent content. -/
theorem c9_empty_content_is_marker (c : Conversation) (pre post : List (String × Option String))
    (role : String) :
    Conversation.get_prompt { c with messages := pre ++ (role, some "") :: post } =
      Conversation.get_prompt { c with messages := pre ++ (role, none) :: post } := by
  obtain ⟨sys, rs, msgs, off, sty, sp, sp2, st1, st2⟩ := c
  by_cases hsty : sty = SeparatorStyle.TWO ∨ sty = SeparatorStyle.VICUNA
  · cases sp2 with
    | none => simp [Conversation.get_prompt, hsty]
    | some s2 =>
      simp only [Conversation.get_prompt, if_pos hsty]
      congr 1
      rw [twoLoop_eq_render, twoLoop_eq_render, turnsRender_append, turnsRender_append]
      simp [turnsRender, specTurnTwo, String.append_assoc]
  · have h1 : sty ≠ SeparatorStyle.TWO := fun hx => hsty (Or.inl hx)
    have h2 : sty ≠ SeparatorStyle.VICUNA := fun hx => hsty (Or.inr hx)
    have hd1 := get_prompt_default
      ⟨sys, rs, pre ++ (role, some "") :: post, off, sty, sp, sp2, st1, st2⟩ h1 h2
    have hd2 := get_prompt_default
      ⟨sys, rs, pre ++ (role, none) :: post, off, sty, sp, sp2, st1, st2⟩ h1 h2
    rw [hd1, hd2]
    have hkey :
        specDefaultPrompt ⟨sys, rs, pre ++ (role, some "") :: post, off, sty, sp, sp2, st1, st2⟩ =
        specDefaultPrompt ⟨sys, rs, pre ++ (role, none) :: post, off, sty, sp, sp2, st1, st2⟩ := by
      simp only [specDefaultPrompt, sysPartDefault, List.length_append, List.length_cons]
      congr 1
      rw [turnsRender_append, turnsRender_append]
      simp [turnsRender, specTurnDefault, String.append_assoc]
    rw [hkey]
